import Mathlib

/-!
Verification development for the dumbbell-chart ViewModel Computation & Layout
Engine (`src/dom.ts`, class `ViewModelManager`, final revision in that file).

The TypeScript source is shallowly embedded: JS numbers are modelled as `ℚ`,
nullable / optional values as `Option`, and the external collaborators
(color palette, value formatter, text measurement) as function-valued fields
of a `Host` structure.  The JS falsy-coalescing idiom `x || y` on numbers is
embedded exactly (`jsOr0`, `jsOrOpt`): `x` counts as falsy when it is `0` or
`undefined`.  Selection identities (`ISelectionId`) are embedded as a
structural composite key with decidable equality, which models the host's
"structurally comparable identity token" contract.
-/

namespace DumbbellChart

/-- Structural embedding of `ISelectionId`: identities are built from the
category index (`withCategory`), the series/group name (`withSeries`) and the
measure query name (`withMeasure`); `equals` is structural equality. -/
inductive SelectionId where
  | cat (ci : Nat)
  | series (groupName : String)
  | dataPoint (ci : Nat) (groupName : String) (queryName : String)
deriving DecidableEq, Repr

/-- A JS value that is either a number or the boolean `false` (the two shapes
the expression `pointHighlighted && <number>measure.highlights[ci]` can take). -/
inductive JSValue where
  | num (q : ℚ)
  | boolFalse
deriving DecidableEq, Repr

/-- True exactly on the `num` constructor. -/
def JSValue.isNum : JSValue → Bool
  | .num _ => true
  | .boolFalse => false

/-- Embedding of `powerbi.DataViewValueColumn` (one column of the flat
`categorical.values` array): role flags, metadata and the per-category-index
`values` / `highlights` arrays.  A `highlights` value of `none` models the
property being absent; an entry of `none` models a `null` highlight. -/
structure ValueColumn where
  rolesMeasure : Bool
  rolesTooltips : Bool
  displayName : String
  queryName : String
  format : Option String
  values : List ℚ
  highlights : Option (List (Option ℚ))
deriving DecidableEq, Repr

/-- Embedding of `powerbi.DataViewValueColumnGroup` (one entry of
`valueGroupings.grouped()`): the series name, the stored per-group
`dataPoints.fillColor` override (if any) and the group's columns. -/
structure ColumnGroup where
  name : String
  fillColorObject : Option String
  values : List ValueColumn
deriving DecidableEq, Repr

/-- Embedding of `powerbi.DataViewCategoryColumn` (only the `values` array is
read by the source). -/
structure CategoryColumn where
  values : List String
deriving DecidableEq, Repr

/-- Embedding of `DataView.categorical`.  `values` is kept in grouped form;
the flat column array the source also reads is recovered by
`flatValueColumns` (in Power BI the flat array is the concatenation of the
grouped columns). -/
structure Categorical where
  categories : Option (List CategoryColumn)
  values : Option (List ColumnGroup)
deriving DecidableEq, Repr

/-- Embedding of a `DataView.metadata.columns` entry (the fields read when
resolving `primaryFormatString`). -/
structure MetadataColumn where
  rolesMeasure : Bool
  groupName : Option String
  format : Option String
deriving DecidableEq, Repr

/-- Embedding of `powerbi.DataView`. -/
structure DataView where
  categorical : Option Categorical
  metadataColumns : List MetadataColumn
deriving DecidableEq, Repr

/-- The flat `categorical.values` array: concatenation of the grouped columns. -/
def flatValueColumns (grouped : List ColumnGroup) : List ValueColumn :=
  grouped.flatMap (·.values)

/-- Embedding of `IViewport` (width/height in layout units). -/
structure IViewport where
  width : ℚ
  height : ℚ
deriving DecidableEq, Repr

/-- Embedding of `IMargin`. -/
structure IMargin where
  top : ℚ
  right : ℚ
  bottom : ℚ
  left : ℚ
deriving DecidableEq, Repr

/-- Embedding of `TextProperties` (the `${n}pt` template string is carried as
its numeric part, which determines it). -/
structure TextProperties where
  fontFamily : String
  fontSize : ℚ
deriving DecidableEq, Repr

/-- Embedding of `AxisOrientation = 'left' | 'bottom'`. -/
inductive AxisOrientation where
  | left
  | bottom
deriving DecidableEq, Repr

/-- Category-axis settings read by the source. -/
structure CategoryAxisSettings where
  orientation : AxisOrientation
  innerPadding : ℚ
  fontFamily : String
  fontSize : ℚ
deriving DecidableEq, Repr

/-- Value-axis settings read by the source.  `displayUnits = 0` models the
"auto" value that is falsy in `displayUnits || maxValue`. -/
structure ValueAxisSettings where
  displayUnits : ℚ
  decimalPlaces : Option Nat
  fontFamily : String
  fontSize : ℚ
deriving DecidableEq, Repr

/-- Data-point settings read by the source. -/
structure DataPointSettings where
  formatStringMissing : String
deriving DecidableEq, Repr

/-- Embedding of the parsed `VisualSettings` (only the parts the
`ViewModelManager` reads). -/
structure VisualSettings where
  categoryAxis : CategoryAxisSettings
  valueAxis : ValueAxisSettings
  dataPoints : DataPointSettings
deriving DecidableEq, Repr

/-- External collaborators (color palette, value formatter, text measurement)
bundled as the host services; all are synchronous functions per the source's
contract. -/
structure Host where
  getColor : String → String
  formatValue : JSValue → String → String
  createFormatter : Option String → ℚ → Option Nat → (ℚ → String)
  measureSvgTextHeight : TextProperties → String → ℚ
  measureSvgTextWidth : TextProperties → String → ℚ

/-- Embedding of `VisualTooltipDataItem`. -/
structure TooltipItem where
  header : Option String
  displayName : String
  value : String
  color : String
  opacity : Option String
deriving DecidableEq, Repr

/-- Embedding of `VisualDataPoint` (selection/highlight flags a data point
carries for `shouldDimPoint` / `shouldEmphasizePoint`). -/
structure VisualDataPoint where
  selected : Bool
  highlighted : Bool
deriving DecidableEq, Repr

/-- Embedding of `SelectableDataPoint` (the shape `getSelectableDataPoints`
returns: an identity plus the selected flag). -/
structure SelectableDataPoint where
  identity : SelectionId
  selected : Bool
deriving DecidableEq, Repr

/-- Embedding of `IGroupBase` (an entry of the distinct `viewModel.groups`
list). -/
structure IGroupBase where
  name : String
  color : String
  groupSelectionId : SelectionId
  value : ℚ
  identity : SelectionId
  selected : Bool
  highlighted : Bool
deriving DecidableEq, Repr

/-- Embedding of `IGroupDataPoint` (a data point within a category). -/
structure IGroupDataPoint where
  name : String
  groupSelectionId : SelectionId
  dataPointSelectionId : SelectionId
  value : ℚ
  valueFormatted : String
  highlightedValue : JSValue
  highlightedValueFormatted : String
  color : String
  identity : SelectionId
  selected : Bool
  tooltipData : List TooltipItem
  highlighted : Bool
deriving DecidableEq, Repr

/-- Embedding of `ICategory`.  `min`/`max` hold the streaming-fold results;
the fold over an empty group list would be `undefined` in JS, which is
unreachable through `mapDataView` because validity forces a non-empty flat
column list (`getD 0` is used for totality there). -/
structure ICategory where
  name : String
  max : ℚ
  min : ℚ
  selectionId : SelectionId
  identity : SelectionId
  selected : Bool
  highlighted : Bool
  groups : List IGroupDataPoint
deriving DecidableEq, Repr

/-- Embedding of the d3 band scale as the record of its configuration
(domain, range, inner padding); the scale function itself is external. -/
structure ScaleBand where
  domain : List String
  range : ℚ × ℚ
  padding : ℚ
deriving DecidableEq, Repr

/-- Embedding of the d3 linear scale as the record of its configuration
(domain, range, nice tick count); `nice` itself is external. -/
structure ScaleLinear where
  domain : ℚ × ℚ
  range : ℚ × ℚ
  niceCount : Nat
deriving DecidableEq, Repr

/-- Generic x/y coordinates (`ICoordinates`). -/
structure ICoordinates where
  x : ℚ
  y : ℚ
deriving DecidableEq, Repr

/-- Embedding of `ICategoryAxis`. -/
structure ICategoryAxis where
  range : ℚ × ℚ
  domain : List String
  scale : ScaleBand
  translate : ICoordinates
  tickTextProperties : TextProperties
  tickLabelDimensions : IViewport
deriving DecidableEq, Repr

/-- Embedding of `IValueAxis` (`tickFormatter` is the external formatter the
source stores on the axis). -/
structure IValueAxis where
  range : ℚ × ℚ
  domain : ℚ × ℚ
  scale : ScaleLinear
  translate : ICoordinates
  tickCount : Nat
  tickSize : ℚ
  tickFormatter : ℚ → String
  tickTextProperties : TextProperties
  tickLabelDimensions : IViewport

/-- Embedding of `IViewModel`.  The two predicate closures
(`shouldDimPoint`, `shouldEmphasizePoint`) read the live view model, so they
are embedded as the standalone functions `shouldDimPoint` /
`shouldEmphasizePoint` taking the view model explicitly. -/
structure IViewModel where
  isValid : Bool
  primaryFormatString : Option String
  margin : IMargin
  groups : List IGroupBase
  categories : List ICategory
  settings : Option VisualSettings
  categoryAxis : Option ICategoryAxis
  valueAxis : Option IValueAxis
  minValue : ℚ
  maxValue : ℚ
  hasSelection : Bool
  hasHighlights : Bool

/-- JS `a || v` on numbers where `a` is known to be a number: `a` is replaced
by `v` exactly when `a = 0` (the only falsy numeric value reachable here). -/
def jsOr0 (a v : ℚ) : ℚ :=
  if a = 0 then v else a

/-- JS `a || v` where `a` may additionally be `undefined` (`none`). -/
def jsOrOpt (a : Option ℚ) (v : ℚ) : ℚ :=
  match a with
  | none => v
  | some q => if q = 0 then v else q

/-- One step of the source's streaming minimum
`acc = Math.min(acc || v, v)` on an already-defined accumulator. -/
def stepMin (acc v : ℚ) : ℚ :=
  min (jsOr0 acc v) v

/-- One step of the source's streaming maximum
`acc = Math.max(acc || v, v)` on an already-defined accumulator. -/
def stepMax (acc v : ℚ) : ℚ :=
  max (jsOr0 acc v) v

/-- The per-category streaming minimum
`categoryMinValue = Math.min(categoryMinValue || groupValue, groupValue)`,
starting from the `undefined` accumulator. -/
def foldJsMin (vs : List ℚ) : Option ℚ :=
  vs.foldl (fun acc v => some (min (jsOrOpt acc v) v)) none

/-- The per-category streaming maximum, starting from `undefined`. -/
def foldJsMax (vs : List ℚ) : Option ℚ :=
  vs.foldl (fun acc v => some (max (jsOrOpt acc v) v)) none

/-- `ViewModelManager.MarginPad`. -/
def MarginPad : ℚ := 15

/-- Embedding of `ViewModelManager.calculateMargins`: a fixed pad on every
side; when both measured tick label dimensions are supplied, the
orientation-dependent extras are added (the read of
`this.viewModel.settings.categoryAxis.orientation` is modelled by the
`settings` argument; the source only performs it under the same guard). -/
def calculateMargins (settings : Option VisualSettings)
    (dims : Option (IViewport × IViewport)) : IMargin :=
  let base : IMargin :=
    { top := MarginPad, right := MarginPad, bottom := MarginPad, left := MarginPad }
  match dims with
  | none => base
  | some (categoryTickLabelDimensions, valueTickLabelDimensions) =>
    let orientation :=
      (settings.map (·.categoryAxis.orientation)).getD AxisOrientation.left
    { top := base.top
      bottom := base.bottom +
        (if orientation = AxisOrientation.left
          then valueTickLabelDimensions.height
          else categoryTickLabelDimensions.height)
      left := base.left +
        (if orientation = AxisOrientation.left
          then categoryTickLabelDimensions.width
          else valueTickLabelDimensions.width)
      right := base.right +
        (if orientation = AxisOrientation.left
          then valueTickLabelDimensions.width / 2
          else 0) }

/-- Embedding of `ViewModelManager.getNewViewModel` (the 'empty' view model). -/
def getNewViewModel (settings : Option VisualSettings) : IViewModel :=
  { isValid := false
    primaryFormatString := none
    margin := calculateMargins settings none
    categories := []
    groups := []
    settings := settings
    categoryAxis := none
    valueAxis := none
    minValue := 0
    maxValue := 0
    hasSelection := false
    hasHighlights := false }

/-- Embedding of the `shouldDimPoint` closure: the `switch (true)` returns
`true` when there is a selection and the point is not selected, or when there
are highlights and the point is not highlighted. -/
def shouldDimPoint (vm : IViewModel) (dataPoint : VisualDataPoint) : Bool :=
  (vm.hasSelection && !dataPoint.selected) || (vm.hasHighlights && !dataPoint.highlighted)

/-- Embedding of the `shouldEmphasizePoint` closure. -/
def shouldEmphasizePoint (dataPoint : VisualDataPoint) : Bool :=
  dataPoint.selected || false

/-- Embedding of `ViewModelManager.isDataViewValid`: the truthiness chain over
`dataView`, `categorical`, `categories` (length exactly 1) and `values`
(flat column count above 0). -/
def isDataViewValid (dataView : Option DataView) : Bool :=
  match dataView with
  | none => false
  | some d =>
    match d.categorical with
    | none => false
    | some c =>
      match c.categories with
      | none => false
      | some cats =>
        match c.values with
        | none => false
        | some grouped =>
          cats.length == 1 && decide (0 < (flatValueColumns grouped).length)

/-- Embedding of `ViewModelManager.getSelectableDataPoints`: categories, then
each category's data points, then the distinct group selectors. -/
def getSelectableDataPoints (vm : IViewModel) : List SelectableDataPoint :=
  (vm.categories.flatMap fun c =>
    ⟨c.identity, c.selected⟩ ::
      c.groups.map fun g => ⟨g.identity, g.selected⟩) ++
  vm.groups.map fun g => ⟨g.identity, g.selected⟩

/-- Embedding of `ViewModelManager.isSelected`:
`initialSelection?.find((dp) => selectionId.equals(dp.identity))?.selected`;
the `undefined` fall-through is `false` in every boolean position it is used. -/
def isSelected (initialSelection : List SelectableDataPoint)
    (selectionId : SelectionId) : Bool :=
  ((initialSelection.find? fun dp => decide (selectionId = dp.identity)).map
    (·.selected)).getD false

/-- An empty `ValueColumn`, standing in for the `undefined` result of
`g.values.find((m) => m.source.roles.measure)`; only reachable on data the
source itself would crash on (a group with no measure column). -/
def emptyValueColumn : ValueColumn :=
  { rolesMeasure := false, rolesTooltips := false, displayName := ""
    queryName := "", format := none, values := [], highlights := none }

/-- The group's measure column (first column carrying the `measure` role). -/
def measureOf (g : ColumnGroup) : ValueColumn :=
  (g.values.find? (·.rolesMeasure)).getD emptyValueColumn

/-- `<number>measure.values[ci]` for a group. -/
def groupValueOf (g : ColumnGroup) (ci : Nat) : ℚ :=
  (measureOf g).values.getD ci 0

/-- `measure.highlights[ci]` for a group (`none` both for a `null` entry and
for an absent highlights array). -/
def highlightEntryOf (g : ColumnGroup) (ci : Nat) : Option ℚ :=
  ((measureOf g).highlights.getD []).getD ci none

/-- Embedding of `ViewModelManager.getTooltipData`. -/
def getTooltipData (host : Host) (settings : VisualSettings)
    (categoryName groupName : String) (measure : ValueColumn)
    (groupValueFormatted color : String) (pointHighlighted : Bool)
    (pointHighlightedValueFormatted : String)
    (tooltips : List ValueColumn) (ci : Nat) : List TooltipItem :=
  let headItem : TooltipItem :=
    { header := some (s!"{categoryName} - {groupName}")
      displayName := measure.displayName
      value := groupValueFormatted
      color := color
      opacity := none }
  let withHighlight :=
    if pointHighlighted then
      [{ header := none, displayName := "Highlighted"
         value := pointHighlightedValueFormatted, color := color
         opacity := some ("0") : TooltipItem }]
    else []
  let tooltipRows := tooltips.map fun tt =>
    ({ header := none
       displayName := tt.displayName
       value := host.formatValue (.num (tt.values.getD ci 0))
         ((tt.format).getD settings.dataPoints.formatStringMissing)
       color := color
       opacity := some ("0") } : TooltipItem)
  headItem :: (withHighlight ++ tooltipRows)

/-- The body of the `grouped().map((g, gi) => ...)` arrow in
`mapCategoryDataToViewModel`: builds the `IGroupDataPoint` for one group of
one category. -/
def mkDataPoint (host : Host) (settings : VisualSettings)
    (primaryFormatString : String) (hasHighlights : Bool)
    (initialSelection : List SelectableDataPoint)
    (ci : Nat) (categoryName : String) (g : ColumnGroup) : IGroupDataPoint :=
  let measure := measureOf g
  let tooltips := g.values.filter (·.rolesTooltips)
  let groupName := g.name
  let groupSelectionId := SelectionId.series groupName
  let dataPointSelectionId := SelectionId.dataPoint ci groupName measure.queryName
  let pointHighlighted := hasHighlights && (highlightEntryOf g ci).isSome
  let groupValue := groupValueOf g ci
  let groupValueFormatted := host.formatValue (.num groupValue) primaryFormatString
  let pointHighlightedValue : JSValue :=
    if pointHighlighted then .num ((highlightEntryOf g ci).getD 0) else .boolFalse
  let pointHighlightedValueFormatted :=
    host.formatValue pointHighlightedValue primaryFormatString
  let color := g.fillColorObject.getD (host.getColor groupName)
  let tooltipData := getTooltipData host settings categoryName groupName measure
    groupValueFormatted color pointHighlighted pointHighlightedValueFormatted
    tooltips ci
  { name := groupName
    groupSelectionId := groupSelectionId
    dataPointSelectionId := dataPointSelectionId
    value := groupValue
    valueFormatted := groupValueFormatted
    highlightedValue := pointHighlightedValue
    highlightedValueFormatted := pointHighlightedValueFormatted
    color := color
    identity := dataPointSelectionId
    selected := isSelected initialSelection dataPointSelectionId
    tooltipData := tooltipData
    highlighted := pointHighlighted }

/-- The `ci === 0` push onto the distinct `viewModel.groups` list. -/
def mkDistinctGroup (host : Host) (hasHighlights : Bool)
    (initialSelection : List SelectableDataPoint) (g : ColumnGroup) : IGroupBase :=
  let measure := measureOf g
  let groupName := g.name
  let groupSelectionId := SelectionId.series groupName
  let groupValue := groupValueOf g 0
  let hs := measure.highlights.getD []
  let groupHighlighted :=
    hasHighlights && ((hs.filter (fun h => h.isSome)).length == hs.length)
  let color := g.fillColorObject.getD (host.getColor groupName)
  { name := groupName
    color := color
    groupSelectionId := groupSelectionId
    value := groupValue
    identity := groupSelectionId
    selected := isSelected initialSelection groupSelectionId
    highlighted := groupHighlighted }

/-- Builds one `ICategory` (one iteration of the outer
`categoryColumn.values.forEach`); the streaming min/max accumulators are the
folds over the group values in group order. -/
def buildCategory (host : Host) (settings : VisualSettings)
    (primaryFormatString : String) (hasHighlights : Bool)
    (initialSelection : List SelectableDataPoint)
    (valueGroupings : List ColumnGroup) (ci : Nat) (cv : String) : ICategory :=
  let categoryName := cv
  let categorySelectionId := SelectionId.cat ci
  let groups := valueGroupings.map
    (mkDataPoint host settings primaryFormatString hasHighlights initialSelection ci categoryName)
  let categoryMinValue :=
    (foldJsMin (valueGroupings.map fun g => groupValueOf g ci)).getD 0
  let categoryMaxValue :=
    (foldJsMax (valueGroupings.map fun g => groupValueOf g ci)).getD 0
  let categoryHighlighted :=
    hasHighlights && ((groups.filter (·.highlighted)).length == groups.length)
  { name := categoryName
    groups := groups
    min := categoryMinValue
    max := categoryMaxValue
    selectionId := categorySelectionId
    identity := categorySelectionId
    selected := isSelected initialSelection categorySelectionId
    highlighted := categoryHighlighted }

/-- The outer `forEach` over the category values, carrying the category
index. -/
def mapCategoriesAux (host : Host) (settings : VisualSettings)
    (primaryFormatString : String) (hasHighlights : Bool)
    (initialSelection : List SelectableDataPoint)
    (valueGroupings : List ColumnGroup) (ci : Nat) :
    List String → List ICategory
  | [] => []
  | cv :: rest =>
    buildCategory host settings primaryFormatString hasHighlights
        initialSelection valueGroupings ci cv ::
      mapCategoriesAux host settings primaryFormatString hasHighlights
        initialSelection valueGroupings (ci + 1) rest

/-- Embedding of `ViewModelManager.mapCategoryDataToViewModel` (the category
list it pushes onto the view model). -/
def mapCategoryDataToViewModel (host : Host) (settings : VisualSettings)
    (primaryFormatString : String) (hasHighlights : Bool)
    (initialSelection : List SelectableDataPoint)
    (categoryColumn : CategoryColumn)
    (valueGroupings : List ColumnGroup) : List ICategory :=
  mapCategoriesAux host settings primaryFormatString hasHighlights
    initialSelection valueGroupings 0 categoryColumn.values

/-- The distinct `viewModel.groups` list: populated only while the first
category (`ci === 0`) is processed, one entry per grouped series. -/
def distinctGroupsOf (host : Host) (hasHighlights : Bool)
    (initialSelection : List SelectableDataPoint)
    (categoryColumn : CategoryColumn)
    (valueGroupings : List ColumnGroup) : List IGroupBase :=
  if categoryColumn.values.isEmpty then []
  else valueGroupings.map (mkDistinctGroup host hasHighlights initialSelection)

/-- Empty stand-ins for the optional-chain extraction steps of a valid
data view (never reached when `isDataViewValid` holds). -/
def emptyCategorical : Categorical := { categories := none, values := none }

/-- Empty `CategoryColumn` stand-in. -/
def emptyCategoryColumn : CategoryColumn := { values := [] }

/-- Empty `DataView` stand-in. -/
def emptyDataView : DataView := { categorical := none, metadataColumns := [] }

/-- `this.categoryColumn = dataView.categorical.categories[0]`. -/
def dvCategoryColumn (d : DataView) : CategoryColumn :=
  ((d.categorical.getD emptyCategorical).categories.getD []).headD emptyCategoryColumn

/-- `this.valueGroupings = dataView.categorical.values` (grouped form). -/
def dvGrouped (d : DataView) : List ColumnGroup :=
  (d.categorical.getD emptyCategorical).values.getD []

/-- JS falsiness of `c.groupName` (absent or empty string). -/
def jsStrFalsy : Option String → Bool
  | none => true
  | some s => s == ""

/-- `primaryFormatString`: format of the first metadata column carrying the
measure role and no group name, falling back to the configured default. -/
def primaryFormatStringOf (d : DataView) (settings : VisualSettings) : String :=
  ((d.metadataColumns.find? fun c =>
      c.rolesMeasure && jsStrFalsy c.groupName).bind (·.format)).getD
    settings.dataPoints.formatStringMissing

/-- `hasHighlights`: at least one flat value column carries a highlights
array. -/
def hasHighlightsOf (grouped : List ColumnGroup) : Bool :=
  decide (0 < ((flatValueColumns grouped).filter fun vg => vg.highlights.isSome).length)

/-- The valid-input branch of `mapDataView`, after `isDataViewValid` has
passed. -/
def mapDataViewValid (host : Host) (settings : VisualSettings)
    (initialSelection : List SelectableDataPoint) (d : DataView) : IViewModel :=
  let vm0 := getNewViewModel (some settings)
  let categoryColumn := dvCategoryColumn d
  let valueGroupings := dvGrouped d
  let hasSelection := decide (0 < (initialSelection.filter (·.selected)).length)
  let hasHighlights := hasHighlightsOf valueGroupings
  let primaryFormatString := primaryFormatStringOf d settings
  let categories := mapCategoryDataToViewModel host settings primaryFormatString
    hasHighlights initialSelection categoryColumn valueGroupings
  let groups := distinctGroupsOf host hasHighlights initialSelection
    categoryColumn valueGroupings
  let minValue := (categories.map (·.min)).foldl stepMin vm0.minValue
  let maxValue := (categories.map (·.max)).foldl stepMax vm0.maxValue
  { vm0 with
    isValid := true
    hasSelection := hasSelection
    hasHighlights := hasHighlights
    primaryFormatString := some primaryFormatString
    categories := categories
    groups := groups
    minValue := minValue
    maxValue := maxValue }

/-- Embedding of `ViewModelManager.mapDataView`: snapshot the current
selectable points, reset the view model, bail out (with the empty, invalid
view model) on invalid input, otherwise build the full model.  Totality of
this function models the source's never-throws contract on the invalid
path. -/
def mapDataView (host : Host) (dataView : Option DataView)
    (settings : VisualSettings) (prior : IViewModel) : IViewModel :=
  let initialSelection := getSelectableDataPoints prior
  let vm0 := getNewViewModel (some settings)
  if isDataViewValid dataView then
    mapDataViewValid host settings initialSelection (dataView.getD emptyDataView)
  else
    vm0

/-- Embedding of `ViewModelManager.getCategoryTickLabelDimensions`: the
largest measured height/width over the category names. -/
def getCategoryTickLabelDimensions (host : Host) (textProperties : TextProperties)
    (vm : IViewModel) : IViewport :=
  { height := (vm.categories.map fun c =>
      host.measureSvgTextHeight textProperties c.name).foldl max 0
    width := (vm.categories.map fun c =>
      host.measureSvgTextWidth textProperties c.name).foldl max 0 }

/-- Embedding of `ViewModelManager.getValueTickLabelDimensions`: the largest
measured height/width over the formatted domain endpoints. -/
def getValueTickLabelDimensions (host : Host) (textProperties : TextProperties)
    (formatter : ℚ → String) (domain : ℚ × ℚ) : IViewport :=
  { height := ([domain.1, domain.2].map fun d =>
      host.measureSvgTextHeight textProperties (formatter d)).foldl max 0
    width := ([domain.1, domain.2].map fun d =>
      host.measureSvgTextWidth textProperties (formatter d)).foldl max 0 }

/-- Default settings stand-in for the (unreachable) read of
`viewModel.settings` before any settings were assigned. -/
def defaultVisualSettings : VisualSettings :=
  { categoryAxis :=
      { orientation := AxisOrientation.left, innerPadding := 0
        fontFamily := "", fontSize := 0 }
    valueAxis :=
      { displayUnits := 0, decimalPlaces := none, fontFamily := "", fontSize := 0 }
    dataPoints := { formatStringMissing := "" } }

/-- Embedding of `ViewModelManager.updateAxes`: measurement pass, margin
derivation, then orientation-dependent range/domain/translate/tick-size
derivation, writing `margin`, `categoryAxis` and `valueAxis` back onto the
view model. -/
def updateAxes (host : Host) (vm : IViewModel) (viewport : IViewport) : IViewModel :=
  let settings := vm.settings.getD defaultVisualSettings
  let orientation := settings.categoryAxis.orientation
  let valueAxisTickFormatter := host.createFormatter vm.primaryFormatString
    (jsOr0 settings.valueAxis.displayUnits vm.maxValue)
    settings.valueAxis.decimalPlaces
  let valueAxisDomain : ℚ × ℚ := (vm.minValue, vm.maxValue)
  let valueAxisTickTextProperties : TextProperties :=
    { fontFamily := settings.valueAxis.fontFamily
      fontSize := settings.valueAxis.fontSize }
  let valueTickLabelDimensions := getValueTickLabelDimensions host
    valueAxisTickTextProperties valueAxisTickFormatter valueAxisDomain
  let categoryAxisTickTextProperties : TextProperties :=
    { fontFamily := settings.categoryAxis.fontFamily
      fontSize := settings.categoryAxis.fontSize }
  let categoryTickLabelDimensions :=
    getCategoryTickLabelDimensions host categoryAxisTickTextProperties vm
  let margin := calculateMargins vm.settings
    (some (categoryTickLabelDimensions, valueTickLabelDimensions))
  let categoryAxisDomain := vm.categories.map (·.name)
  let valueAxisRange : ℚ × ℚ :=
    ( if orientation = AxisOrientation.left then margin.left
        else viewport.height - margin.bottom
    , if orientation = AxisOrientation.left then viewport.width - margin.right
        else margin.top )
  let valueAxisTranslate : ICoordinates :=
    { x := if orientation = AxisOrientation.left then 0 else margin.left
      y := if orientation = AxisOrientation.left
            then viewport.height - margin.bottom else 0 }
  let valueAxisTickSize :=
    if orientation = AxisOrientation.left
      then -viewport.height - margin.top - margin.bottom
      else -viewport.width - margin.right - margin.left
  let categoryAxisRange : ℚ × ℚ :=
    ( if orientation = AxisOrientation.left then margin.top else margin.left
    , if orientation = AxisOrientation.left then viewport.height - margin.bottom
        else viewport.width - margin.right )
  let categoryAxisTranslate : ICoordinates :=
    { x := if orientation = AxisOrientation.left then margin.left else 0
      y := if orientation = AxisOrientation.left then 0
            else viewport.height - margin.bottom }
  let valueAxisTickCount := 3
  { vm with
    margin := margin
    categoryAxis := some
      { range := categoryAxisRange
        domain := categoryAxisDomain
        scale :=
          { domain := categoryAxisDomain
            range := categoryAxisRange
            padding := if orientation = AxisOrientation.left then 0
              else settings.categoryAxis.innerPadding / 100 }
        translate := categoryAxisTranslate
        tickTextProperties := categoryAxisTickTextProperties
        tickLabelDimensions := categoryTickLabelDimensions }
    valueAxis := some
      { range := valueAxisRange
        domain := valueAxisDomain
        scale :=
          { domain := valueAxisDomain
            range := valueAxisRange
            niceCount := valueAxisTickCount }
        translate := valueAxisTranslate
        tickCount := valueAxisTickCount
        tickSize := valueAxisTickSize
        tickFormatter := valueAxisTickFormatter
        tickTextProperties := valueAxisTickTextProperties
        tickLabelDimensions := valueTickLabelDimensions } }

/-! Verification-layer helpers: selection application, data-point collection,
axis projections, and the spec-side quantities claims compare against. -/

/-- Models the renderer/behavior back-channel that toggles entity `selected`
flags on the live view model: selection is a function of the structural
identity, applied to every selectable entity. -/
def applySel (sel : SelectionId → Bool) (vm : IViewModel) : IViewModel :=
  { vm with
    categories := vm.categories.map fun c =>
      { c with
        selected := sel c.identity
        groups := c.groups.map fun g => { g with selected := sel g.identity } }
    groups := vm.groups.map fun g => { g with selected := sel g.identity } }

/-- Every `VisualDataPoint` of the view model (categories, per-category data
points, distinct groups) in the shape `shouldDimPoint` consumes. -/
def allDataPoints (vm : IViewModel) : List VisualDataPoint :=
  (vm.categories.flatMap fun c =>
    ⟨c.selected, c.highlighted⟩ ::
      c.groups.map fun g => ⟨g.selected, g.highlighted⟩) ++
  vm.groups.map fun g => ⟨g.selected, g.highlighted⟩

/-- The category-axis range stored on the view model (junk when unset). -/
def categoryAxisRangeOf (vm : IViewModel) : ℚ × ℚ :=
  (vm.categoryAxis.map (·.range)).getD (0, 0)

/-- The category-axis domain stored on the view model (junk when unset). -/
def categoryAxisDomainOf (vm : IViewModel) : List String :=
  (vm.categoryAxis.map (·.domain)).getD []

/-- The value-axis range stored on the view model (junk when unset). -/
def valueAxisRangeOf (vm : IViewModel) : ℚ × ℚ :=
  (vm.valueAxis.map (·.range)).getD (0, 0)

/-- The value-axis domain stored on the view model (junk when unset). -/
def valueAxisDomainOf (vm : IViewModel) : ℚ × ℚ :=
  (vm.valueAxis.map (·.domain)).getD (0, 0)

/-- Spec-side quantity: the minimum over a list (the spec's "minimum over all
categories of category.min"), `none` on the empty list. -/
def specMinOver : List ℚ → Option ℚ
  | [] => none
  | x :: xs => some (xs.foldl min x)

/-- Spec-side quantity: the maximum over a list. -/
def specMaxOver : List ℚ → Option ℚ
  | [] => none
  | x :: xs => some (xs.foldl max x)

/-- Spec-side predicate: the pair `r` spans the viewport height between the
vertical margins (in either direction) — "the physical dimension carrying
this range is the height". -/
def rangeSpansHeight (r : ℚ × ℚ) (viewport : IViewport) (m : IMargin) : Prop :=
  r = (m.top, viewport.height - m.bottom) ∨ r = (viewport.height - m.bottom, m.top)

/-- Spec-side predicate: the pair `r` spans the viewport width between the
horizontal margins (in either direction). -/
def rangeSpansWidth (r : ℚ × ℚ) (viewport : IViewport) (m : IMargin) : Prop :=
  r = (m.left, viewport.width - m.right) ∨ r = (viewport.width - m.right, m.left)

/-- Spec-side quantity: every series name seen at any data point of the
dataset (each category instance sees every grouped series). -/
def seriesNamesSeen (catVals : List String) (grouped : List ColumnGroup) : List String :=
  catVals.flatMap fun _ => grouped.map (·.name)

/-- Replaces a settings record's orientation. -/
def withOrientation (s : VisualSettings) (o : AxisOrientation) : VisualSettings :=
  { s with categoryAxis := { s.categoryAxis with orientation := o } }

/-- Replaces the settings stored on a view model. -/
def setSettings (vm : IViewModel) (s : VisualSettings) : IViewModel :=
  { vm with settings := some s }

/-! Concrete fixtures used by counterexamples and witnesses. -/

/-- A concrete host whose collaborator functions are constant; sufficient for
evaluating the engine on concrete inputs. -/
def testHost : Host :=
  { getColor := fun _ => "#118DFF"
    formatValue := fun v _ =>
      match v with
      | .num q => toString q.num
      | .boolFalse => "false"
    createFormatter := fun _ _ _ => fun _ => "tick"
    measureSvgTextHeight := fun _ _ => 16
    measureSvgTextWidth := fun _ _ => 40 }

/-- Concrete parsed settings for the fixtures. -/
def testSettings : VisualSettings :=
  { categoryAxis :=
      { orientation := AxisOrientation.left, innerPadding := 20
        fontFamily := "Arial", fontSize := 9 }
    valueAxis :=
      { displayUnits := 0, decimalPlaces := none
        fontFamily := "Arial", fontSize := 9 }
    dataPoints := { formatStringMissing := "#,0.00" } }

/-- The view model before any data has arrived. -/
def emptyVm : IViewModel := getNewViewModel none

/-- Builds a measure column with the given query name, values and highlights. -/
def mkMeasureColumn (qn : String) (vals : List ℚ)
    (hl : Option (List (Option ℚ))) : ValueColumn :=
  { rolesMeasure := true, rolesTooltips := false, displayName := "Sales"
    queryName := qn, format := some ("#,0"), values := vals, highlights := hl }

/-- Builds a data view with one category column and the given groups. -/
def mkDataView (catVals : List String) (grouped : List ColumnGroup) : DataView :=
  { categorical := some { categories := some [{ values := catVals }]
                          values := some grouped }
    metadataColumns := [{ rolesMeasure := true, groupName := none
                          format := some ("#,0") }] }

/-- The spec's worked example: 2 categories × 2 groups with values
`A:[6,14]`, `B:[20,12]` (column values are per category index). -/
def dvExample : DataView :=
  mkDataView ["A", "B"]
    [ { name := "Group One", fillColorObject := none
        values := [mkMeasureColumn ("M") [6, 20] none] }
    , { name := "Group Two", fillColorObject := none
        values := [mkMeasureColumn ("M") [14, 12] none] } ]

/-- A valid input containing a measure value of `0`: two categories, one
group, values `A:0`, `B:5`. -/
def dvZeroDataset : DataView :=
  mkDataView ["A", "B"]
    [ { name := "Group One", fillColorObject := none
        values := [mkMeasureColumn ("M") [0, 5] none] } ]

/-- A valid input containing a measure value of `0` inside one category:
one category, two groups with values `0` and `5`. -/
def dvZeroCategory : DataView :=
  mkDataView ["A"]
    [ { name := "Group One", fillColorObject := none
        values := [mkMeasureColumn ("M") [0] none] }
    , { name := "Group Two", fillColorObject := none
        values := [mkMeasureColumn ("M") [5] none] } ]

/-- A valid input with highlights present where the point of category `B` is
not highlighted (`null` highlight entry). -/
def dvHighlights : DataView :=
  mkDataView ["A", "B"]
    [ { name := "Group One", fillColorObject := none
        values := [mkMeasureColumn ("M") [1, 2] (some [some 1, none])] } ]

/-- Fallback `ICategory` for positional access in closed statements. -/
def defaultICategory : ICategory :=
  { name := "", max := 0, min := 0, selectionId := SelectionId.cat 0
    identity := SelectionId.cat 0, selected := false, highlighted := false
    groups := [] }

/-- Fallback `IGroupDataPoint` for positional access in closed statements. -/
def defaultIGroupDataPoint : IGroupDataPoint :=
  { name := "", groupSelectionId := SelectionId.series ("")
    dataPointSelectionId := SelectionId.cat 0, value := 0, valueFormatted := ""
    highlightedValue := JSValue.boolFalse, highlightedValueFormatted := ""
    color := "", identity := SelectionId.cat 0, selected := false
    tooltipData := [], highlighted := false }

/-- Fallback `SelectableDataPoint`. -/
def defaultSelectable : SelectableDataPoint :=
  { identity := SelectionId.cat 0, selected := false }

/-- A valid input with one category whose two groups are one highlighted and
one non-highlighted. -/
def dvMixedHighlight : DataView :=
  mkDataView ["A"]
    [ { name := "Group One", fillColorObject := none
        values := [mkMeasureColumn ("M") [3] (some [some 1])] }
    , { name := "Group Two", fillColorObject := none
        values := [mkMeasureColumn ("M") [7] (some [none])] } ]

/-! Helper lemmas about the embedded engine. -/

theorem mapDataView_valid_eq (host : Host) (dataView : Option DataView)
    (settings : VisualSettings) (prior : IViewModel)
    (h : isDataViewValid dataView = true) :
    mapDataView host dataView settings prior =
      mapDataViewValid host settings (getSelectableDataPoints prior)
        (dataView.getD emptyDataView) := by
  simp [mapDataView, h]

theorem mapDataView_invalid_eq (host : Host) (dataView : Option DataView)
    (settings : VisualSettings) (prior : IViewModel)
    (h : isDataViewValid dataView = false) :
    mapDataView host dataView settings prior = getNewViewModel (some settings) := by
  simp [mapDataView, h]

theorem mem_mapCategoriesAux {host : Host} {settings : VisualSettings}
    {primaryFormatString : String} {hasHighlights : Bool}
    {initialSelection : List SelectableDataPoint}
    {valueGroupings : List ColumnGroup} {c : ICategory} :
    ∀ {cvs : List String} {ci : Nat},
      c ∈ mapCategoriesAux host settings primaryFormatString hasHighlights
        initialSelection valueGroupings ci cvs →
      ∃ ci' cv, c = buildCategory host settings primaryFormatString hasHighlights
        initialSelection valueGroupings ci' cv := by
  intro cvs
  induction cvs with
  | nil => intro ci h; simp [mapCategoriesAux] at h
  | cons cv rest ih =>
    intro ci h
    rw [mapCategoriesAux, List.mem_cons] at h
    rcases h with h | h
    · exact ⟨ci, cv, h⟩
    · exact ih h

theorem length_filter_beq_all {α : Type} (p : α → Bool) (l : List α) :
    ((l.filter p).length == l.length) = l.all p := by
  induction l with
  | nil => rfl
  | cons x t ih =>
    cases hp : p x with
    | true => simpa [List.filter_cons, hp] using ih
    | false =>
      have hle := List.length_filter_le p t
      simp only [List.filter_cons, hp, if_neg Bool.false_ne_true, List.all_cons,
        Bool.false_and, List.length_cons]
      exact beq_eq_false_iff_ne.mpr (by omega)

/-! Claim theorems. -/

/-- Claim C1: the spec's worked example (2 categories × 2 groups, values
`A:[6,14]`, `B:[20,12]`) does yield `minValue=6`, `maxValue=20`, category A
`{min:6,max:14}` and category B `{min:12,max:20}`; but the dataset-level
invariant `minValue = min over categories of category.min` is violated by the
code's streaming fold `Math.min(this.viewModel.minValue || categoryMinValue,
categoryMinValue)`: on the valid input with two categories of one group and
values `A:0`, `B:5` the code produces `minValue = 5` although the minimum of
the stored category minima is `0` (an accumulated extremum of `0` is falsy in
JS and is discarded at the next step). -/
theorem C1_minmax_aggregation :
    ((mapDataView testHost (some dvExample) testSettings emptyVm).minValue = 6 ∧
     (mapDataView testHost (some dvExample) testSettings emptyVm).maxValue = 20 ∧
     ((mapDataView testHost (some dvExample) testSettings emptyVm).categories.map
        fun c => (c.name, c.min, c.max)) = [("A", 6, 14), ("B", 12, 20)]) ∧
    ((mapDataView testHost (some dvZeroDataset) testSettings emptyVm).minValue = 5 ∧
     ((mapDataView testHost (some dvZeroDataset) testSettings emptyVm).categories.map
        (·.min)) = [0, 5] ∧
     specMinOver ((mapDataView testHost (some dvZeroDataset) testSettings
        emptyVm).categories.map (·.min)) = some 0 ∧
     some (mapDataView testHost (some dvZeroDataset) testSettings emptyVm).minValue ≠
       specMinOver ((mapDataView testHost (some dvZeroDataset) testSettings
          emptyVm).categories.map (·.min))) := by
  decide

/-- Claim C2: the per-category invariant `category.min ≤ g.value ≤
category.max` is violated by the streaming fold
`Math.min(categoryMinValue || groupValue, groupValue)`: on the valid input
with one category whose two groups have values `0` and `5`, the code stores
`category.min = 5` while a group of that category has `value = 0`. -/
theorem C2_category_extrema_invariant :
    ((mapDataView testHost (some dvZeroCategory) testSettings emptyVm).categories.map
      fun c => (c.min, c.max, c.groups.map (·.value))) = [(5, 5, [0, 5])] ∧
    ¬ (∀ c ∈ (mapDataView testHost (some dvZeroCategory) testSettings
          emptyVm).categories,
        ∀ g ∈ c.groups, c.min ≤ g.value ∧ g.value ≤ c.max) := by
  constructor
  · decide
  · decide

/-- Claim C5: for every input rejected by `isDataViewValid` the (total,
hence never-throwing) `mapDataView` leaves the view model with
`isValid = false`, `categories = []` and `groups = []`; moreover a
categorical whose category-column list does not have length exactly 1
(zero or several category columns) is invalid, and so is one whose flat
value-column list is empty (zero value columns). -/
theorem C5_invalid_input_degrades :
    (∀ (host : Host) (dataView : Option DataView) (settings : VisualSettings)
        (prior : IViewModel), isDataViewValid dataView = false →
      (mapDataView host dataView settings prior).isValid = false ∧
      (mapDataView host dataView settings prior).categories = [] ∧
      (mapDataView host dataView settings prior).groups = []) ∧
    (∀ (meta : List MetadataColumn) (cats : List CategoryColumn)
        (grouped : List ColumnGroup), cats.length ≠ 1 →
      isDataViewValid (some ⟨some ⟨some cats, some grouped⟩, meta⟩) = false) ∧
    (∀ (meta : List MetadataColumn) (cats : List CategoryColumn)
        (grouped : List ColumnGroup), flatValueColumns grouped = [] →
      isDataViewValid (some ⟨some ⟨some cats, some grouped⟩, meta⟩) = false) := by
  refine ⟨fun host dataView settings prior h => ?_, fun meta cats grouped h => ?_,
    fun meta cats grouped h => ?_⟩
  · rw [mapDataView_invalid_eq host dataView settings prior h]
    exact ⟨rfl, rfl, rfl⟩
  · have hb : (cats.length == 1) = false := beq_eq_false_iff_ne.mpr h
    simp [isDataViewValid, hb]
  · simp [isDataViewValid, h]

/-- Witness for C5 at the concrete invalid input `none` (no data view at
all): the hypothesis holds and the conclusion evaluates as claimed. -/
theorem C5_witness :
    isDataViewValid none = false ∧
    (mapDataView testHost none testSettings emptyVm).isValid = false ∧
    (mapDataView testHost none testSettings emptyVm).categories = [] ∧
    (mapDataView testHost none testSettings emptyVm).groups = [] := by
  refine ⟨by decide, ?_⟩
  exact C5_invalid_input_degrades.1 testHost none testSettings emptyVm (by decide)

/-- Claim C7: `calculateMargins` starts every side at the fixed pad; with
measured dimensions supplied, `left` orientation adds the value-label height
to the bottom, the category-label width to the left and half the value-label
width to the right, while `bottom` orientation adds the category-label height
to the bottom and the value-label width to the left, with no extra right
reserve. -/
theorem C7_margin_derivation (s : VisualSettings) (catD valD : IViewport) :
    calculateMargins (some (withOrientation s AxisOrientation.left))
        (some (catD, valD)) =
      { top := MarginPad, right := MarginPad + valD.width / 2
        bottom := MarginPad + valD.height, left := MarginPad + catD.width } ∧
    calculateMargins (some (withOrientation s AxisOrientation.bottom))
        (some (catD, valD)) =
      { top := MarginPad, right := MarginPad + 0
        bottom := MarginPad + catD.height, left := MarginPad + valD.width } ∧
    (∀ os : Option VisualSettings, calculateMargins os none =
      { top := MarginPad, right := MarginPad
        bottom := MarginPad, left := MarginPad }) := by
  exact ⟨rfl, rfl, fun _ => rfl⟩

/-- Claim C8: re-running `updateAxes` with only the orientation changed from
`left` to `bottom` swaps which physical viewport dimension (height vs width)
carries the category-axis range versus the value-axis range, while
`minValue`, `maxValue` and the order of the category-axis domain (the
category names in insertion order) are unchanged. -/
theorem C8_orientation_swap (host : Host) (vm : IViewModel)
    (s : VisualSettings) (viewport : IViewport) :
    (updateAxes host (setSettings vm (withOrientation s AxisOrientation.left))
        viewport).minValue = vm.minValue ∧
    (updateAxes host (setSettings vm (withOrientation s AxisOrientation.left))
        viewport).maxValue = vm.maxValue ∧
    (updateAxes host (setSettings (updateAxes host
        (setSettings vm (withOrientation s AxisOrientation.left)) viewport)
        (withOrientation s AxisOrientation.bottom)) viewport).minValue = vm.minValue ∧
    (updateAxes host (setSettings (updateAxes host
        (setSettings vm (withOrientation s AxisOrientation.left)) viewport)
        (withOrientation s AxisOrientation.bottom)) viewport).maxValue = vm.maxValue ∧
    categoryAxisDomainOf (updateAxes host
        (setSettings vm (withOrientation s AxisOrientation.left)) viewport) =
      vm.categories.map (·.name) ∧
    categoryAxisDomainOf (updateAxes host (setSettings (updateAxes host
        (setSettings vm (withOrientation s AxisOrientation.left)) viewport)
        (withOrientation s AxisOrientation.bottom)) viewport) =
      vm.categories.map (·.name) ∧
    valueAxisDomainOf (updateAxes host
        (setSettings vm (withOrientation s AxisOrientation.left)) viewport) =
      (vm.minValue, vm.maxValue) ∧
    valueAxisDomainOf (updateAxes host (setSettings (updateAxes host
        (setSettings vm (withOrientation s AxisOrientation.left)) viewport)
        (withOrientation s AxisOrientation.bottom)) viewport) =
      (vm.minValue, vm.maxValue) ∧
    rangeSpansHeight (categoryAxisRangeOf (updateAxes host
        (setSettings vm (withOrientation s AxisOrientation.left)) viewport))
      viewport (updateAxes host
        (setSettings vm (withOrientation s AxisOrientation.left)) viewport).margin ∧
    rangeSpansWidth (valueAxisRangeOf (updateAxes host
        (setSettings vm (withOrientation s AxisOrientation.left)) viewport))
      viewport (updateAxes host
        (setSettings vm (withOrientation s AxisOrientation.left)) viewport).margin ∧
    rangeSpansWidth (categoryAxisRangeOf (updateAxes host (setSettings (updateAxes host
        (setSettings vm (withOrientation s AxisOrientation.left)) viewport)
        (withOrientation s AxisOrientation.bottom)) viewport))
      viewport (updateAxes host (setSettings (updateAxes host
        (setSettings vm (withOrientation s AxisOrientation.left)) viewport)
        (withOrientation s AxisOrientation.bottom)) viewport).margin ∧
    rangeSpansHeight (valueAxisRangeOf (updateAxes host (setSettings (updateAxes host
        (setSettings vm (withOrientation s AxisOrientation.left)) viewport)
        (withOrientation s AxisOrientation.bottom)) viewport))
      viewport (updateAxes host (setSettings (updateAxes host
        (setSettings vm (withOrientation s AxisOrientation.left)) viewport)
        (withOrientation s AxisOrientation.bottom)) viewport).margin := by
  exact ⟨rfl, rfl, rfl, rfl, rfl, rfl, rfl, rfl, Or.inl rfl, Or.inl rfl,
    Or.inl rfl, Or.inr rfl⟩

/-! Projection lemmas for the valid branch (all definitional). -/

theorem mapDataViewValid_categories (host : Host) (settings : VisualSettings)
    (init : List SelectableDataPoint) (d : DataView) :
    (mapDataViewValid host settings init d).categories =
      mapCategoriesAux host settings (primaryFormatStringOf d settings)
        (hasHighlightsOf (dvGrouped d)) init (dvGrouped d) 0
        (dvCategoryColumn d).values := rfl

theorem mapDataViewValid_hasHighlights (host : Host) (settings : VisualSettings)
    (init : List SelectableDataPoint) (d : DataView) :
    (mapDataViewValid host settings init d).hasHighlights =
      hasHighlightsOf (dvGrouped d) := rfl

theorem mapDataViewValid_hasSelection (host : Host) (settings : VisualSettings)
    (init : List SelectableDataPoint) (d : DataView) :
    (mapDataViewValid host settings init d).hasSelection =
      decide (0 < (init.filter (·.selected)).length) := rfl

theorem mapDataViewValid_groups (host : Host) (settings : VisualSettings)
    (init : List SelectableDataPoint) (d : DataView) :
    (mapDataViewValid host settings init d).groups =
      distinctGroupsOf host (hasHighlightsOf (dvGrouped d)) init
        (dvCategoryColumn d) (dvGrouped d) := rfl

theorem mapDataViewValid_primaryFormatString (host : Host)
    (settings : VisualSettings) (init : List SelectableDataPoint) (d : DataView) :
    (mapDataViewValid host settings init d).primaryFormatString =
      some (primaryFormatStringOf d settings) := rfl

theorem buildCategory_groups (host : Host) (settings : VisualSettings)
    (primaryFormatString : String) (hasHighlights : Bool)
    (initialSelection : List SelectableDataPoint)
    (valueGroupings : List ColumnGroup) (ci : Nat) (cv : String) :
    (buildCategory host settings primaryFormatString hasHighlights
        initialSelection valueGroupings ci cv).groups =
      valueGroupings.map (mkDataPoint host settings primaryFormatString
        hasHighlights initialSelection ci cv) := rfl

theorem buildCategory_highlighted_all (host : Host) (settings : VisualSettings)
    (primaryFormatString : String) (hasHighlights : Bool)
    (initialSelection : List SelectableDataPoint)
    (valueGroupings : List ColumnGroup) (ci : Nat) (cv : String) :
    (buildCategory host settings primaryFormatString hasHighlights
        initialSelection valueGroupings ci cv).highlighted =
      (hasHighlights &&
        (buildCategory host settings primaryFormatString hasHighlights
          initialSelection valueGroupings ci cv).groups.all (·.highlighted)) := by
  rw [buildCategory_groups]
  show (hasHighlights && _) = _
  rw [length_filter_beq_all]

/-- Claim C4: for every valid input, a built category's `highlighted` flag is
`hasHighlights` AND-ed with "every group of the category is highlighted"
(conjunctive law); in particular, on the concrete input whose single category
has one highlighted and one non-highlighted group, the category's flag is
`false`. -/
theorem C4_conjunctive_highlight :
    (∀ (host : Host) (dataView : Option DataView) (settings : VisualSettings)
        (prior : IViewModel) (c : ICategory), isDataViewValid dataView = true →
      c ∈ (mapDataView host dataView settings prior).categories →
      c.highlighted = ((mapDataView host dataView settings prior).hasHighlights &&
        c.groups.all (·.highlighted))) ∧
    ((mapDataView testHost (some dvMixedHighlight) testSettings emptyVm).categories.map
      fun c => (c.highlighted, c.groups.map (·.highlighted))) =
      [(false, [true, false])] := by
  constructor
  · intro host dataView settings prior c hv hc
    rw [mapDataView_valid_eq host dataView settings prior hv] at hc ⊢
    rw [mapDataViewValid_categories] at hc
    obtain ⟨ci, cv, rfl⟩ := mem_mapCategoriesAux hc
    rw [mapDataViewValid_hasHighlights]
    exact buildCategory_highlighted_all _ _ _ _ _ _ _ _
  · decide

/-- Witness for C4: the conjunctive law applied at the mixed-highlight
input's first category. -/
theorem C4_witness :
    isDataViewValid (some dvMixedHighlight) = true ∧
    ((mapDataView testHost (some dvMixedHighlight) testSettings
        emptyVm).categories.getD 0 defaultICategory).highlighted =
      ((mapDataView testHost (some dvMixedHighlight) testSettings
          emptyVm).hasHighlights &&
        ((mapDataView testHost (some dvMixedHighlight) testSettings
            emptyVm).categories.getD 0 defaultICategory).groups.all
          (·.highlighted)) := by
  refine ⟨by decide, ?_⟩
  exact C4_conjunctive_highlight.1 testHost (some dvMixedHighlight) testSettings
    emptyVm _ (by decide) (by decide)

/-- Claim C10: a data point whose highlight entry is `null` (stored
`highlighted = false`) gets the JS boolean `false` — not a number — as its
`highlightedValue`, and its `highlightedValueFormatted` is the formatter
applied to that `false`; a number is stored only when the point is
highlighted. -/
theorem C10_highlight_value_booleans :
    ∀ (host : Host) (dataView : Option DataView) (settings : VisualSettings)
      (prior : IViewModel) (c : ICategory) (p : IGroupDataPoint),
      isDataViewValid dataView = true →
      c ∈ (mapDataView host dataView settings prior).categories →
      p ∈ c.groups →
      (p.highlighted = false →
        p.highlightedValue = JSValue.boolFalse ∧
        p.highlightedValueFormatted = host.formatValue JSValue.boolFalse
          (((mapDataView host dataView settings prior).primaryFormatString).getD
            settings.dataPoints.formatStringMissing)) ∧
      (p.highlighted = true → p.highlightedValue.isNum = true) := by
  intro host dataView settings prior c p hv hc hp
  rw [mapDataView_valid_eq host dataView settings prior hv] at hc ⊢
  rw [mapDataViewValid_categories] at hc
  obtain ⟨ci, cv, rfl⟩ := mem_mapCategoriesAux hc
  rw [buildCategory_groups] at hp
  obtain ⟨g, hg, rfl⟩ := List.mem_map.mp hp
  rw [mapDataViewValid_primaryFormatString, Option.getD_some]
  constructor
  · intro hfalse
    simp only [mkDataPoint] at hfalse ⊢
    rw [hfalse]
    simp
  · intro htrue
    simp only [mkDataPoint] at htrue ⊢
    rw [htrue]
    simp [JSValue.isNum]

/-- Witness for C10 at the non-highlighted point of category `B` of the
highlight fixture. -/
theorem C10_witness :
    isDataViewValid (some dvHighlights) = true ∧
    (((mapDataView testHost (some dvHighlights) testSettings
          emptyVm).categories.getD 1 defaultICategory).groups.getD 0
        defaultIGroupDataPoint).highlighted = false ∧
    (((mapDataView testHost (some dvHighlights) testSettings
          emptyVm).categories.getD 1 defaultICategory).groups.getD 0
        defaultIGroupDataPoint).highlightedValue = JSValue.boolFalse ∧
    (((mapDataView testHost (some dvHighlights) testSettings
          emptyVm).categories.getD 1 defaultICategory).groups.getD 0
        defaultIGroupDataPoint).highlightedValueFormatted =
      testHost.formatValue JSValue.boolFalse
        (((mapDataView testHost (some dvHighlights) testSettings
            emptyVm).primaryFormatString).getD
          testSettings.dataPoints.formatStringMissing) := by
  refine ⟨by decide, by decide, ?_⟩
  exact (C10_highlight_value_booleans testHost (some dvHighlights) testSettings
    emptyVm
    ((mapDataView testHost (some dvHighlights) testSettings
      emptyVm).categories.getD 1 defaultICategory)
    (((mapDataView testHost (some dvHighlights) testSettings
        emptyVm).categories.getD 1 defaultICategory).groups.getD 0
      defaultIGroupDataPoint)
    (by decide) (by decide) (by decide)).1 (by decide)

/-- Claim C6: for every valid input (with pairwise-distinct grouped series
names, as the host's grouping contract guarantees), the distinct `groups`
list — populated only while processing the first category — has length equal
to the number of unique series names seen anywhere in the dataset, whatever
the number of categories. -/
theorem C6_distinct_groups_length :
    ∀ (host : Host) (dataView : Option DataView) (settings : VisualSettings)
      (prior : IViewModel), isDataViewValid dataView = true →
      ((dvGrouped (dataView.getD emptyDataView)).map (·.name)).Nodup →
      (mapDataView host dataView settings prior).groups.length =
        (seriesNamesSeen (dvCategoryColumn (dataView.getD emptyDataView)).values
          (dvGrouped (dataView.getD emptyDataView))).toFinset.card := by
  intro host dataView settings prior hv hnd
  rw [mapDataView_valid_eq host dataView settings prior hv, mapDataViewValid_groups]
  cases hcv : (dvCategoryColumn (dataView.getD emptyDataView)).values with
  | nil => simp [distinctGroupsOf, seriesNamesSeen, hcv]
  | cons v rest =>
    have hset : (seriesNamesSeen (v :: rest)
        (dvGrouped (dataView.getD emptyDataView))).toFinset =
        ((dvGrouped (dataView.getD emptyDataView)).map (·.name)).toFinset := by
      ext x
      simp only [seriesNamesSeen, List.mem_toFinset, List.mem_flatMap]
      constructor
      · rintro ⟨a, _, hx⟩
        exact hx
      · intro hx
        exact ⟨v, List.mem_cons_self v rest, hx⟩
    rw [hset, List.toFinset_card_of_nodup hnd, List.length_map]
    simp [distinctGroupsOf, hcv]

/-- Witness for C6 at the worked example (2 categories, 2 series). -/
theorem C6_witness :
    isDataViewValid (some dvExample) = true ∧
    ((dvGrouped ((some dvExample).getD emptyDataView)).map (·.name)).Nodup ∧
    (mapDataView testHost (some dvExample) testSettings emptyVm).groups.length =
      (seriesNamesSeen (dvCategoryColumn ((some dvExample).getD emptyDataView)).values
        (dvGrouped ((some dvExample).getD emptyDataView))).toFinset.card := by
  refine ⟨by decide, by decide, ?_⟩
  exact C6_distinct_groups_length testHost (some dvExample) testSettings emptyVm
    (by decide) (by decide)

/-- Claim C9 (amended): toggling the selected state off for every selectable
entity before a rebuild forces `hasSelection = false`; `shouldDimPoint` then
returns `false` for every data point of the view model provided the input
carries no highlights (the code also dims non-highlighted points whenever
highlights are present, regardless of selection). -/
theorem C9_no_selection_no_dim :
    ∀ (host : Host) (dataView : Option DataView) (settings : VisualSettings)
      (prior : IViewModel),
      (getSelectableDataPoints prior).all (fun dp => !dp.selected) = true →
      (mapDataView host dataView settings prior).hasSelection = false ∧
      ((mapDataView host dataView settings prior).hasHighlights = false →
        (allDataPoints (mapDataView host dataView settings prior)).all
          (fun p => !shouldDimPoint (mapDataView host dataView settings prior) p)
          = true) := by
  intro host dataView settings prior hoff
  have hsel : (mapDataView host dataView settings prior).hasSelection = false := by
    by_cases hv : isDataViewValid dataView
    · rw [mapDataView_valid_eq host dataView settings prior hv,
        mapDataViewValid_hasSelection]
      have hnil : (getSelectableDataPoints prior).filter (·.selected) = [] := by
        rw [List.filter_eq_nil_iff]
        intro a ha
        have := List.all_eq_true.mp hoff a ha
        simp only [Bool.not_eq_eq_eq_not, Bool.not_true] at this
        simp [this]
      rw [hnil]
      decide
    · rw [mapDataView_invalid_eq host dataView settings prior
        (Bool.not_eq_true _ ▸ eq_false_of_ne_true hv)]
      rfl
  refine ⟨hsel, fun hh => ?_⟩
  rw [List.all_eq_true]
  intro p _
  simp [shouldDimPoint, hsel, hh]

/-- C9 counterexample: on the highlight-carrying fixture, with every
selectable entity toggled off before the rebuild, `hasSelection` is `false`
as claimed — but `shouldDimPoint` still returns `true` on the (actual)
non-highlighted data point of category `B`, so "every shouldDim call returns
false" fails. -/
theorem C9_counterexample :
    (getSelectableDataPoints (applySel (fun _ => false)
        (mapDataView testHost (some dvHighlights) testSettings emptyVm))).all
      (fun dp => !dp.selected) = true ∧
    (mapDataView testHost (some dvHighlights) testSettings
        (applySel (fun _ => false)
          (mapDataView testHost (some dvHighlights) testSettings
            emptyVm))).hasSelection = false ∧
    shouldDimPoint
      (mapDataView testHost (some dvHighlights) testSettings
        (applySel (fun _ => false)
          (mapDataView testHost (some dvHighlights) testSettings emptyVm)))
      { selected :=
          ((((mapDataView testHost (some dvHighlights) testSettings
              (applySel (fun _ => false)
                (mapDataView testHost (some dvHighlights) testSettings
                  emptyVm))).categories.getD 1 defaultICategory).groups.getD 0
            defaultIGroupDataPoint)).selected
        highlighted :=
          ((((mapDataView testHost (some dvHighlights) testSettings
              (applySel (fun _ => false)
                (mapDataView testHost (some dvHighlights) testSettings
                  emptyVm))).categories.getD 1 defaultICategory).groups.getD 0
            defaultIGroupDataPoint)).highlighted } = true := by
  refine ⟨by decide, by decide, by decide⟩

/-- Witness for C9 (amended) at the highlight-free worked example. -/
theorem C9_witness :
    (getSelectableDataPoints (applySel (fun _ => false)
        (mapDataView testHost (some dvExample) testSettings emptyVm))).all
      (fun dp => !dp.selected) = true ∧
    (mapDataView testHost (some dvExample) testSettings
        (applySel (fun _ => false)
          (mapDataView testHost (some dvExample) testSettings
            emptyVm))).hasSelection = false ∧
    (allDataPoints (mapDataView testHost (some dvExample) testSettings
        (applySel (fun _ => false)
          (mapDataView testHost (some dvExample) testSettings emptyVm)))).all
      (fun p => !shouldDimPoint (mapDataView testHost (some dvExample)
        testSettings (applySel (fun _ => false)
          (mapDataView testHost (some dvExample) testSettings emptyVm))) p)
      = true := by
  refine ⟨by decide, ?_, ?_⟩
  · exact (C9_no_selection_no_dim testHost (some dvExample) testSettings
      (applySel (fun _ => false)
        (mapDataView testHost (some dvExample) testSettings emptyVm))
      (by decide)).1
  · exact (C9_no_selection_no_dim testHost (some dvExample) testSettings
      (applySel (fun _ => false)
        (mapDataView testHost (some dvExample) testSettings emptyVm))
      (by decide)).2 (by decide)

/-! Selection-reconciliation lemmas (for the round-trip claim). -/

theorem find_of_mem {α : Type} (p : α → Bool) (l : List α) (x : α)
    (hx : x ∈ l) (hp : p x = true) :
    ∃ y, l.find? p = some y ∧ p y = true ∧ y ∈ l := by
  induction l with
  | nil => cases hx
  | cons a t ih =>
    cases hpa : p a with
    | true =>
      exact ⟨a, List.find?_cons_of_pos t hpa, hpa, List.mem_cons_self a t⟩
    | false =>
      rw [List.find?_cons_of_neg t (by simp [hpa])]
      rcases List.mem_cons.mp hx with rfl | hxt
      · rw [hpa] at hp; cases hp
      · obtain ⟨y, h1, h2, h3⟩ := ih hxt
        exact ⟨y, h1, h2, List.mem_cons_of_mem a h3⟩

theorem sp_applySel (sel : SelectionId → Bool) (vm : IViewModel) :
    getSelectableDataPoints (applySel sel vm) =
      (getSelectableDataPoints vm).map fun q => ⟨q.identity, sel q.identity⟩ := by
  simp only [getSelectableDataPoints, applySel, List.map_append, List.map_flatMap,
    List.flatMap_map, List.map_cons, List.map_map]
  rfl

theorem selected_applySel (sel : SelectionId → Bool) (vm : IViewModel) :
    ∀ p ∈ getSelectableDataPoints (applySel sel vm),
      p.selected = sel p.identity := by
  intro p hp
  rw [sp_applySel] at hp
  obtain ⟨q, _, rfl⟩ := List.mem_map.mp hp
  rfl

theorem ids_applySel (sel : SelectionId → Bool) (vm : IViewModel) :
    (getSelectableDataPoints (applySel sel vm)).map (·.identity) =
      (getSelectableDataPoints vm).map (·.identity) := by
  rw [sp_applySel, List.map_map]
  rfl

/-- The selectable identities of a built view model, as a function of the
data alone (no selection state). -/
def idsAux (grouped : List ColumnGroup) : Nat → List String → List SelectionId
  | _, [] => []
  | ci, _ :: rest =>
    SelectionId.cat ci ::
      ((grouped.map fun g =>
          SelectionId.dataPoint ci g.name (measureOf g).queryName) ++
        idsAux grouped (ci + 1) rest)

theorem catIds_eq (host : Host) (settings : VisualSettings)
    (primaryFormatString : String) (hasHighlights : Bool)
    (init : List SelectableDataPoint) (grouped : List ColumnGroup) :
    ∀ (cvs : List String) (ci : Nat),
      (mapCategoriesAux host settings primaryFormatString hasHighlights init
          grouped ci cvs).flatMap
        (fun c => c.identity :: c.groups.map (·.identity)) =
      idsAux grouped ci cvs := by
  intro cvs
  induction cvs with
  | nil => intro ci; rfl
  | cons cv rest ih =>
    intro ci
    rw [mapCategoriesAux, List.flatMap_cons, idsAux, ← ih (ci + 1)]
    rw [show (buildCategory host settings primaryFormatString hasHighlights init
        grouped ci cv).groups.map (·.identity) =
      grouped.map (fun g =>
        SelectionId.dataPoint ci g.name (measureOf g).queryName) from by
      rw [buildCategory_groups, List.map_map]; rfl]
    rfl

theorem distinctIds_eq (host : Host) (hasHighlights : Bool)
    (init : List SelectableDataPoint) (catCol : CategoryColumn)
    (grouped : List ColumnGroup) :
    (distinctGroupsOf host hasHighlights init catCol grouped).map (·.identity) =
      if catCol.values.isEmpty then []
      else grouped.map fun g => SelectionId.series g.name := by
  unfold distinctGroupsOf
  split
  · rfl
  · rw [List.map_map]; rfl

theorem ids_mapDataViewValid (host : Host) (settings : VisualSettings)
    (init : List SelectableDataPoint) (d : DataView) :
    (getSelectableDataPoints (mapDataViewValid host settings init d)).map
        (·.identity) =
      idsAux (dvGrouped d) 0 (dvCategoryColumn d).values ++
        (if (dvCategoryColumn d).values.isEmpty then []
         else (dvGrouped d).map fun g => SelectionId.series g.name) := by
  simp only [getSelectableDataPoints, List.map_append]
  congr 1
  · rw [List.map_flatMap]
    simp only [List.map_cons, List.map_map]
    rw [mapDataViewValid_categories]
    exact catIds_eq host settings (primaryFormatStringOf d settings)
      (hasHighlightsOf (dvGrouped d)) init (dvGrouped d)
      (dvCategoryColumn d).values 0
  · rw [List.map_map, mapDataViewValid_groups,
      ← distinctIds_eq host (hasHighlightsOf (dvGrouped d)) init
        (dvCategoryColumn d) (dvGrouped d)]
    rfl

theorem ids_mapDataView_indep (host : Host) (dataView : Option DataView)
    (settings : VisualSettings) (prior prior' : IViewModel) :
    (getSelectableDataPoints (mapDataView host dataView settings prior)).map
        (·.identity) =
      (getSelectableDataPoints (mapDataView host dataView settings prior')).map
        (·.identity) := by
  by_cases hv : isDataViewValid dataView
  · rw [mapDataView_valid_eq host dataView settings prior hv,
      mapDataView_valid_eq host dataView settings prior' hv,
      ids_mapDataViewValid, ids_mapDataViewValid]
  · rw [mapDataView_invalid_eq host dataView settings prior
        (eq_false_of_ne_true hv),
      mapDataView_invalid_eq host dataView settings prior'
        (eq_false_of_ne_true hv)]

theorem selected_isSelected_mapDataView (host : Host)
    (dataView : Option DataView) (settings : VisualSettings)
    (prior : IViewModel) :
    ∀ p ∈ getSelectableDataPoints (mapDataView host dataView settings prior),
      p.selected = isSelected (getSelectableDataPoints prior) p.identity := by
  intro p hp
  by_cases hv : isDataViewValid dataView
  · rw [mapDataView_valid_eq host dataView settings prior hv] at hp
    simp only [getSelectableDataPoints, List.mem_append, List.mem_flatMap,
      List.mem_cons, List.mem_map] at hp
    rcases hp with ⟨c, hc, rfl | ⟨g, hg, rfl⟩⟩ | ⟨g, hg, rfl⟩
    · rw [mapDataViewValid_categories] at hc
      obtain ⟨ci, cv, rfl⟩ := mem_mapCategoriesAux hc
      rfl
    · rw [mapDataViewValid_categories] at hc
      obtain ⟨ci, cv, rfl⟩ := mem_mapCategoriesAux hc
      rw [buildCategory_groups] at hg
      obtain ⟨g0, hg0, rfl⟩ := List.mem_map.mp hg
      rfl
    · rw [mapDataViewValid_groups] at hg
      unfold distinctGroupsOf at hg
      split at hg
      · cases hg
      · obtain ⟨g0, hg0, rfl⟩ := List.mem_map.mp hg
        rfl
  · rw [mapDataView_invalid_eq host dataView settings prior
      (eq_false_of_ne_true hv)] at hp
    simp [getSelectableDataPoints, getNewViewModel] at hp

/-- Claim C3: selection round-trip.  If the prior view model is a build of
the same raw data carrying an arbitrary per-identity selection state (the
renderer back-channel `applySel`), then after rebuilding with identical data
every entity `E` that was selected has a fresh counterpart with an
identity-equal (structurally equal) token whose `selected` flag is already
`true` — no re-selection needed. -/
theorem C3_selection_roundtrip :
    ∀ (host : Host) (dataView : Option DataView) (settings : VisualSettings)
      (sel : SelectionId → Bool) (p0 : IViewModel) (E : SelectableDataPoint),
      E ∈ getSelectableDataPoints
        (applySel sel (mapDataView host dataView settings p0)) →
      E.selected = true →
      ∃ E' ∈ getSelectableDataPoints (mapDataView host dataView settings
          (applySel sel (mapDataView host dataView settings p0))),
        E'.identity = E.identity ∧ E'.selected = true := by
  intro host dataView settings sel p0 E hE hEsel
  have hselE : sel E.identity = true := by
    rw [← selected_applySel sel (mapDataView host dataView settings p0) E hE]
    exact hEsel
  have hid : E.identity ∈
      (getSelectableDataPoints (mapDataView host dataView settings
        (applySel sel (mapDataView host dataView settings p0)))).map
        (·.identity) := by
    rw [ids_mapDataView_indep host dataView settings
      (applySel sel (mapDataView host dataView settings p0)) p0]
    have h3 : E.identity ∈ (getSelectableDataPoints (applySel sel
        (mapDataView host dataView settings p0))).map (·.identity) :=
      List.mem_map_of_mem _ hE
    rw [ids_applySel sel (mapDataView host dataView settings p0)] at h3
    exact h3
  obtain ⟨E', hE', hEid⟩ := List.mem_map.mp hid
  refine ⟨E', hE', hEid, ?_⟩
  rw [selected_isSelected_mapDataView host dataView settings
    (applySel sel (mapDataView host dataView settings p0)) E' hE']
  obtain ⟨y, hyfind, hyp, hymem⟩ :=
    find_of_mem (fun dp => decide (E'.identity = dp.identity))
      (getSelectableDataPoints (applySel sel
        (mapDataView host dataView settings p0))) E hE
      (decide_eq_true hEid)
  unfold isSelected
  rw [hyfind]
  have hy1 : E'.identity = y.identity := of_decide_eq_true hyp
  have hy2 := selected_applySel sel (mapDataView host dataView settings p0) y hymem
  simp only [Option.map_some', Option.getD_some]
  rw [hy2, ← hy1, hEid, hselE]

/-- Witness for C3: on the worked example with everything selected, the
category-A entity survives the rebuild already selected. -/
theorem C3_witness :
    ∃ E' ∈ getSelectableDataPoints (mapDataView testHost (some dvExample)
        testSettings (applySel (fun _ => true)
          (mapDataView testHost (some dvExample) testSettings emptyVm))),
      E'.identity = SelectionId.cat 0 ∧ E'.selected = true := by
  exact C3_selection_roundtrip testHost (some dvExample) testSettings
    (fun _ => true) emptyVm ⟨SelectionId.cat 0, true⟩ (by decide) rfl

end DumbbellChart
